import Mathlib

/-!
Shallow embedding of the brickhouse-brands-demo backend core:
the order-lifecycle endpoints (`src/backend/app/routers/orders.py`),
the inventory endpoints (`src/backend/app/routers/inventory.py`) and the
relational state they act on (tables declared in
`src/database/demo_setup.py`).

Modelling conventions:
* The relational store is a `DB` record holding the rows of each table.
* A SQL `UPDATE ... WHERE cond RETURNING id` is embedded as: check
  whether some row satisfies `cond` (the `RETURNING` fetch); if so, map
  the row transformer over the table; otherwise the handler raises and
  the transaction is rolled back (`get_db_cursor` calls
  `connection.rollback()` on any exception), so a failing call returns
  an `ApiError` and no new state.
* Timestamps are modelled at day granularity as `Int` day numbers
  (`DATE(x)` is the identity); `CURRENT_DATE` / `NOW()` become an
  explicit `today`/`now` argument.
* SQL `numeric` values (unit prices, aggregate values) are `Rat`;
  Python float arithmetic in the analytics handlers is modelled with
  exact `Rat` arithmetic, and Python `round(x, k)` with round-to-nearest
  at `k` decimals.
-/

namespace Brickhouse

/-- The four legal values of the `order_status` column
(CHECK constraint in `demo_setup.py`). -/
inductive OrderStatus where
  | pending_review
  | approved
  | fulfilled
  | cancelled
deriving DecidableEq

/-- A row of the `orders` table. -/
structure OrderRow where
  order_id : Nat
  order_number : String
  from_store_id : Option Nat
  to_store_id : Nat
  product_id : Nat
  quantity_cases : Int
  order_status : OrderStatus
  requested_by : Nat
  approved_by : Option Nat
  order_date : Int
  approved_date : Option Int
  fulfilled_date : Option Int
  notes : Option String
  version : Int
deriving DecidableEq

/-- A row of the `inventory` table. -/
structure InventoryRow where
  inventory_id : Nat
  store_id : Nat
  product_id : Nat
  quantity_cases : Int
  reserved_cases : Int
  last_updated : Int
  version : Int
deriving DecidableEq

/-- A row of the `stores` table (the columns the embedded handlers read). -/
structure StoreRow where
  store_id : Nat
  region : String
deriving DecidableEq

/-- A row of the `products` table (the columns the embedded handlers read). -/
structure ProductRow where
  product_id : Nat
  category : String
  unit_price : Rat
deriving DecidableEq

/-- The relational state: one list of rows per table, plus the serial
sequence that assigns `order_id` values.  Users are kept as their ids
(the handlers only ever join on `user_id`). -/
structure DB where
  orders : List OrderRow
  inventory : List InventoryRow
  stores : List StoreRow
  products : List ProductRow
  users : List Nat
  next_order_id : Nat
deriving DecidableEq

/-- Errors a handler can raise: the routers only ever produce
`HTTPException`s with codes 400, 404 and 500. -/
inductive ApiError where
  | badRequest (detail : String)
  | notFound (detail : String)
  | serverError (detail : String)
deriving DecidableEq

instance {ε α : Type} [DecidableEq ε] [DecidableEq α] :
    DecidableEq (Except ε α)
  | Except.ok a, Except.ok b =>
      if h : a = b then isTrue (by rw [h])
      else isFalse (by intro hh; cases hh; exact h rfl)
  | Except.ok _, Except.error _ => isFalse (by intro hh; cases hh)
  | Except.error _, Except.ok _ => isFalse (by intro hh; cases hh)
  | Except.error e, Except.error e2 =>
      if h : e = e2 then isTrue (by rw [h])
      else isFalse (by intro hh; cases hh; exact h rfl)

def invalidStatusMsg : String := "Invalid status"
def orderNotFoundMsg : String := "Order not found"
def cannotCancelMsg : String := "Order not found or cannot be cancelled"
def cannotModifyMsg : String := "Order not found or cannot be modified"
def noFieldsMsg : String := "No fields to update"
def inventoryNotFoundMsg : String := "Inventory item not found"
def createFailedMsg : String := "Failed to create order"
def cancellationPrefix : String := "Cancellation reason: "
def cancellationSep : String := "\n\nCancellation reason: "
def pendingStr : String := "pending_review"
def approvedStr : String := "approved"
def fulfilledStr : String := "fulfilled"
def cancelledStr : String := "cancelled"
def allStr : String := "all"
def emptyStr : String := ""
def tempNumber : String := "TEMP"
def ordPrefix : String := "ORD"

/-- `valid_statuses` in `update_order_status`. -/
def validStatuses : List String :=
  [pendingStr, approvedStr, fulfilledStr, cancelledStr]

/-- Reading a status string into the column enum; `none` exactly when the
string is not in `validStatuses`. -/
def parseStatus : String → Option OrderStatus
  | "pending_review" => some OrderStatus.pending_review
  | "approved" => some OrderStatus.approved
  | "fulfilled" => some OrderStatus.fulfilled
  | "cancelled" => some OrderStatus.cancelled
  | _ => none

/-- Status column rendered back to its string (used by the status query
filter `o.order_status = %s`). -/
def statusToString : OrderStatus → String
  | OrderStatus.pending_review => pendingStr
  | OrderStatus.approved => approvedStr
  | OrderStatus.fulfilled => fulfilledStr
  | OrderStatus.cancelled => cancelledStr

/-- The per-row effect of the `UPDATE` in `update_order_status`
(orders.py lines 365-392): the approved branch also sets `approved_by`
and `approved_date`, the fulfilled branch also sets `fulfilled_date`,
every branch sets the status and bumps `version`. -/
def statusUpdateRow (st : OrderStatus) (approved_by : Option Nat) (now : Int)
    (o : OrderRow) : OrderRow :=
  match st with
  | OrderStatus.approved =>
      { o with order_status := OrderStatus.approved,
               approved_by := approved_by,
               approved_date := some now,
               version := o.version + 1 }
  | OrderStatus.fulfilled =>
      { o with order_status := OrderStatus.fulfilled,
               fulfilled_date := some now,
               version := o.version + 1 }
  | s => { o with order_status := s, version := o.version + 1 }

/-- `PUT /orders/(id)/status` — `update_order_status` in orders.py
(lines 350-408).  Validates only that the requested status string is one
of the four known statuses; the `UPDATE` has no condition on the current
status and never touches the `inventory` table. -/
def update_order_status (db : DB) (order_id : Nat) (status : String)
    (approved_by : Option Nat) (now : Int) : Except ApiError DB :=
  match parseStatus status with
  | none => Except.error (ApiError.badRequest invalidStatusMsg)
  | some st =>
      if db.orders.any (fun o => o.order_id == order_id) then
        Except.ok { db with orders := db.orders.map (fun o =>
          if o.order_id == order_id then statusUpdateRow st approved_by now o
          else o) }
      else
        Except.error (ApiError.notFound orderNotFoundMsg)

/-- The shared `WHERE` clause of `update_order` and `cancel_order`:
`order_id = %s AND order_status IN ('pending_review', 'approved')`. -/
def activeWithId (order_id : Nat) (o : OrderRow) : Bool :=
  o.order_id == order_id &&
    (o.order_status == OrderStatus.pending_review ||
     o.order_status == OrderStatus.approved)

/-- The `CASE` expression on `notes` in `cancel_order` (orders.py lines
652-656). -/
def cancelNotes (reason : String) : Option String → String
  | none => cancellationPrefix ++ reason
  | some n =>
      if n == emptyStr then cancellationPrefix ++ reason
      else n ++ cancellationSep ++ reason

/-- `PUT /orders/(id)/cancel` — `cancel_order` in orders.py (lines
643-679).  Only rows in `pending_review` or `approved` match the
`UPDATE`; inventory is never touched. -/
def cancel_order (db : DB) (order_id : Nat) (reason : String) :
    Except ApiError DB :=
  if db.orders.any (activeWithId order_id) then
    Except.ok { db with orders := db.orders.map (fun o =>
      if activeWithId order_id o then
        { o with order_status := OrderStatus.cancelled,
                 notes := some (cancelNotes reason o.notes),
                 version := o.version + 1 }
      else o) }
  else
    Except.error (ApiError.notFound cannotCancelMsg)

/-- A dynamically-built `SET` clause writes a field only when it was
supplied in the request body. -/
def setField {α : Type} (new : Option α) (old : Option α) : Option α :=
  match new with
  | some n => some n
  | none => old

/-- `PUT /orders/(id)` — `update_order` in orders.py (lines 567-640).
Sets only the supplied fields, always bumps `version`; same `WHERE`
clause as `cancel_order`. -/
def update_order (db : DB) (order_id : Nat) (quantity_cases : Option Int)
    (notes : Option String) : Except ApiError DB :=
  if quantity_cases.isNone && notes.isNone then
    Except.error (ApiError.badRequest noFieldsMsg)
  else if db.orders.any (activeWithId order_id) then
    Except.ok { db with orders := db.orders.map (fun o =>
      if activeWithId order_id o then
        { o with quantity_cases := quantity_cases.getD o.quantity_cases,
                 notes := setField notes o.notes,
                 version := o.version + 1 }
      else o) }
  else
    Except.error (ApiError.notFound cannotModifyMsg)

/-- `PUT /inventory/(id)` — `update_inventory` in inventory.py (lines
292-331).  The dynamic field loop over `InventoryUpdate` (schemas.py
lines 88-90) writes whichever of `quantity_cases` / `reserved_cases`
were supplied, with no check of any kind on the values; `last_updated`
and `version` are always set. -/
def update_inventory (db : DB) (inventory_id : Nat)
    (quantity_cases : Option Int) (reserved_cases : Option Int)
    (now : Int) : Except ApiError DB :=
  if quantity_cases.isNone && reserved_cases.isNone then
    Except.error (ApiError.badRequest noFieldsMsg)
  else if db.inventory.any (fun r => r.inventory_id == inventory_id) then
    Except.ok { db with inventory := db.inventory.map (fun r =>
      if r.inventory_id == inventory_id then
        { r with quantity_cases := quantity_cases.getD r.quantity_cases,
                 reserved_cases := reserved_cases.getD r.reserved_cases,
                 last_updated := now,
                 version := r.version + 1 }
      else r) }
  else
    Except.error (ApiError.notFound inventoryNotFoundMsg)

/-- The invariant claimed by the spec for inventory rows:
`0 <= reserved_cases <= quantity_cases`. -/
def invInvariant (r : InventoryRow) : Prop :=
  0 ≤ r.reserved_cases ∧ r.reserved_cases ≤ r.quantity_cases

instance (r : InventoryRow) : Decidable (invInvariant r) := by
  unfold invInvariant; infer_instance

def storeExists (db : DB) (sid : Nat) : Bool :=
  db.stores.any (fun s => s.store_id == sid)

def productExists (db : DB) (pid : Nat) : Bool :=
  db.products.any (fun p => p.product_id == pid)

def userExists (db : DB) (uid : Nat) : Bool :=
  db.users.any (fun u => u == uid)

def lookupStore (db : DB) (sid : Nat) : Option StoreRow :=
  db.stores.find? (fun s => s.store_id == sid)

def lookupProduct (db : DB) (pid : Nat) : Option ProductRow :=
  db.products.find? (fun p => p.product_id == pid)

/-- The request body of `POST /orders` (`OrderCreate` in schemas.py
lines 126-135).  Every field is a plain pydantic type: there is no
`gt=0` bound on `quantity_cases` and no validator of any kind. -/
structure OrderCreate where
  order_number : Option String := none
  from_store_id : Option Nat := none
  to_store_id : Nat
  product_id : Nat
  quantity_cases : Int
  requested_by : Nat
  approved_by : Option Nat := none
  notes : Option String := none
  order_date : Option Int := none
deriving DecidableEq

/-- The foreign-key constraints of the `orders` table (demo_setup.py
lines 250-266) that the `INSERT` in `create_order` is subject to.  The
handler itself checks nothing; a violated constraint makes the insert
raise, which `create_order` turns into a generic 500. -/
def fkOk (db : DB) (d : OrderCreate) : Bool :=
  storeExists db d.to_store_id && productExists db d.product_id &&
  userExists db d.requested_by &&
  (match d.from_store_id with
   | none => true
   | some s => storeExists db s) &&
  (match d.approved_by with
   | none => true
   | some u => userExists db u)

/-- The `UNIQUE(order_number)` constraint: the generated-number path
first inserts the placeholder `TEMP`, the provided-number path inserts
the given number directly; either insert raises on a duplicate. -/
def numberConflict (db : DB) (d : OrderCreate) : Bool :=
  match d.order_number with
  | none => db.orders.any (fun o => o.order_number == tempNumber)
  | some n => db.orders.any (fun o => o.order_number == n)

/-- `SUBSTRING(order_number FROM 4)::INTEGER` guarded by the regex
`^ORD[0-9]+$` (the order-number scan in `create_order`, orders.py lines
228-240). -/
def ordNumberValue (s : String) : Option Nat :=
  if ordPrefix.isPrefixOf s && !((s.drop 3) == emptyStr)
      && (s.drop 3).all Char.isDigit then
    (s.drop 3).toNat?
  else none

/-- Python `f"ORD(n):06d"` formatting: six-digit zero padding. -/
def formatOrdNumber (n : Nat) : String :=
  let d := toString n
  ordPrefix ++ String.mk (List.replicate (6 - d.length) '0') ++ d

/-- `COALESCE(MAX(numeric part) + 1, order_id)` over the existing
`ORD`-formatted numbers (the placeholder `TEMP` row never matches the
regex, so scanning before or after the placeholder insert is the
same). -/
def nextOrdNumber (db : DB) (fallback : Nat) : Nat :=
  let nums := db.orders.filterMap (fun o => ordNumberValue o.order_number)
  match nums.max? with
  | some m => m + 1
  | none => fallback

/-- The row the `INSERT` of `create_order` leaves behind: database
defaults give status `pending_review`, version 1 and a current-timestamp
order date; the order number is the supplied one, or the next free
`ORD` number. -/
def newOrderRow (db : DB) (d : OrderCreate) (now : Int) : OrderRow :=
  { order_id := db.next_order_id
    order_number :=
      (match d.order_number with
       | some n => n
       | none => formatOrdNumber (nextOrdNumber db db.next_order_id))
    from_store_id := d.from_store_id
    to_store_id := d.to_store_id
    product_id := d.product_id
    quantity_cases := d.quantity_cases
    order_status := OrderStatus.pending_review
    requested_by := d.requested_by
    approved_by := d.approved_by
    order_date := d.order_date.getD now
    approved_date := none
    fulfilled_date := none
    notes := d.notes
    version := 1 }

/-- `POST /orders` — `create_order` in orders.py (lines 173-305).  The
two-step generated-number path (insert `TEMP`, then rename to the next
free `ORD` number inside the same transaction) is collapsed to a single
insert with the final number.  Any constraint violation raises, is
caught by the blanket `except`, and surfaces as a 500 with the
transaction rolled back. -/
def create_order (db : DB) (d : OrderCreate) (now : Int) :
    Except ApiError (DB × Nat) :=
  if !fkOk db d || numberConflict db d then
    Except.error (ApiError.serverError createFailedMsg)
  else
    Except.ok ({ db with orders := db.orders ++ [newOrderRow db d now],
                         next_order_id := db.next_order_id + 1 },
               db.next_order_id)

/-- Query parameters of `GET /orders` that shape the row filter
(pagination only slices the filtered list and is not modelled). -/
structure OrderFilters where
  region : Option String := none
  category : Option String := none
  status : Option String := none
  expired_sla_only : Bool := false
  date_from : Option Int := none
  date_to : Option Int := none
  as_of_date : Option Int := none
deriving DecidableEq

/-- The visibility clause of `get_orders` / `get_order_status_summary`:
with an as-of date, `DATE(order_date) <= DATE(as_of) + INTERVAL '7
days'`; without one, `DATE(order_date) <= CURRENT_DATE`. -/
def asOfVisible (as_of : Option Int) (today : Int) (o : OrderRow) : Bool :=
  match as_of with
  | some d => decide (o.order_date ≤ d + 7)
  | none => decide (o.order_date ≤ today)

/-- The expired-SLA clause of `get_orders` (pending review and more than
2 days old relative to the as-of date or now). -/
def slaExpired (as_of : Option Int) (today : Int) (o : OrderRow) : Bool :=
  o.order_status == OrderStatus.pending_review &&
    (match as_of with
     | some d => decide (o.order_date < d - 2)
     | none => decide (o.order_date < today - 2))

/-- `if status and status != "all"` then `o.order_status = %s`. -/
def statusFilterCond (status : Option String) (o : OrderRow) : Bool :=
  match status with
  | some s =>
      if !(s == emptyStr) && !(s == allStr) then statusToString o.order_status == s
      else true
  | none => true

/-- `if region and region != "all"` then `ts.region = %s` (region of the
destination store). -/
def regionCond (db : DB) (region : Option String) (o : OrderRow) : Bool :=
  match region with
  | some r =>
      if !(r == emptyStr) && !(r == allStr) then
        match lookupStore db o.to_store_id with
        | some s => s.region == r
        | none => false
      else true
  | none => true

/-- `if category and category != "all"` then `p.category = %s`. -/
def categoryCond (db : DB) (category : Option String) (o : OrderRow) : Bool :=
  match category with
  | some c =>
      if !(c == emptyStr) && !(c == allStr) then
        match lookupProduct db o.product_id with
        | some p => p.category == c
        | none => false
      else true
  | none => true

/-- `DATE(order_date) >= date_from` / `<= date_to` when supplied. -/
def dateRangeCond (date_from date_to : Option Int) (o : OrderRow) : Bool :=
  (match date_from with
   | some d => decide (d ≤ o.order_date)
   | none => true) &&
  (match date_to with
   | some d => decide (o.order_date ≤ d)
   | none => true)

/-- The inner joins of the `get_orders` query: destination store,
product and requesting user must exist (the approver and source-store
joins are LEFT JOINs and never drop rows). -/
def orderJoinOk (db : DB) (o : OrderRow) : Bool :=
  storeExists db o.to_store_id && productExists db o.product_id &&
  userExists db o.requested_by

/-- All `get_orders` conditions except the as-of / current-date
visibility clause. -/
def orderRestConds (db : DB) (f : OrderFilters) (today : Int)
    (o : OrderRow) : Bool :=
  orderJoinOk db o &&
  (if f.expired_sla_only then slaExpired f.as_of_date today o
   else statusFilterCond f.status o) &&
  regionCond db f.region o &&
  categoryCond db f.category o &&
  dateRangeCond f.date_from f.date_to o

/-- The full row filter of `GET /orders` (orders.py lines 42-137). -/
def orderMatches (db : DB) (f : OrderFilters) (today : Int)
    (o : OrderRow) : Bool :=
  asOfVisible f.as_of_date today o && orderRestConds db f today o

/-- The set of rows `GET /orders` pages over: both the count query and
the data query filter `orders` by the same conditions. -/
def get_orders_rows (db : DB) (f : OrderFilters) (today : Int) :
    List OrderRow :=
  db.orders.filter (orderMatches db f today)

/-- Query parameters of `GET /orders/status/summary`. -/
structure SummaryFilters where
  region : Option String := none
  category : Option String := none
  date_from : Option Int := none
  date_to : Option Int := none
  as_of_date : Option Int := none
deriving DecidableEq

/-- The inner joins of the summary query: destination store and product
(no user join there). -/
def summaryJoinOk (db : DB) (o : OrderRow) : Bool :=
  storeExists db o.to_store_id && productExists db o.product_id

/-- The row filter of `GET /orders/status/summary` (orders.py lines
427-465). -/
def summaryMatches (db : DB) (f : SummaryFilters) (today : Int)
    (o : OrderRow) : Bool :=
  summaryJoinOk db o &&
  asOfVisible f.as_of_date today o &&
  regionCond db f.region o &&
  categoryCond db f.category o &&
  dateRangeCond f.date_from f.date_to o

def summaryRows (db : DB) (f : SummaryFilters) (today : Int) :
    List OrderRow :=
  db.orders.filter (summaryMatches db f today)

/-- `status_counts` of the summary: count of filtered rows per status
(every status value is one of the four dict keys, so no row is
dropped). -/
def statusCount (db : DB) (f : SummaryFilters) (today : Int)
    (st : OrderStatus) : Nat :=
  (summaryRows db f today).countP (fun o => o.order_status == st)

/-- `total_cases` of the summary: quantities summed over every filtered
row (across all status groups). -/
def summaryTotalCases (db : DB) (f : SummaryFilters) (today : Int) : Int :=
  ((summaryRows db f today).map (fun o => o.quantity_cases)).sum

/-- `expired_sla_count` of the summary: the same filter plus
pending-review and the 2-day SLA clause. -/
def expiredSlaCount (db : DB) (f : SummaryFilters) (today : Int) : Nat :=
  (summaryRows db f today).countP (slaExpired f.as_of_date today)

/-- `quantity_cases * unit_price` for an order joined to its product
(joined rows always have the product, so the `none` arm is inert). -/
def orderValue (db : DB) (o : OrderRow) : Rat :=
  match lookupProduct db o.product_id with
  | some p => (o.quantity_cases : Rat) * p.unit_price
  | none => 0

/-- The analytics endpoints compare the region case-insensitively:
`if region and region.lower() != "all"`. -/
def analyticsRegionCond (db : DB) (region : Option String)
    (o : OrderRow) : Bool :=
  match region with
  | some r =>
      if !(r == emptyStr) && !(r.toLower == allStr) then
        match lookupStore db o.to_store_id with
        | some s => s.region == r
        | none => false
      else true
  | none => true

/-- Query parameters of `GET /orders/analytics/status-distribution`. -/
structure DistFilters where
  days : Int := 30
  region : Option String := none
  date_from : Option Int := none
  date_to : Option Int := none
deriving DecidableEq

/-- Row filter of the status-distribution query (orders.py lines
829-862): no future orders, either an explicit date range or a
look-back window, optional region. -/
def distMatches (db : DB) (f : DistFilters) (today : Int)
    (o : OrderRow) : Bool :=
  summaryJoinOk db o &&
  decide (o.order_date ≤ today) &&
  (match f.date_from, f.date_to with
   | some df, some dt => decide (df ≤ o.order_date) && decide (o.order_date ≤ dt)
   | _, _ => decide (today - f.days ≤ o.order_date)) &&
  analyticsRegionCond db f.region o

/-- `GROUP BY order_status` with `COUNT(*)` and
`SUM(quantity_cases * unit_price)`; one group per status value present
(the `ORDER BY count DESC` is presentational and not modelled). -/
def distGroups (db : DB) (f : DistFilters) (today : Int) :
    List (OrderStatus × Nat × Rat) :=
  let rows := db.orders.filter (distMatches db f today)
  ((rows.map (fun o => o.order_status)).dedup).map (fun st =>
    let g := rows.filter (fun o => o.order_status == st)
    (st, g.length, (g.map (orderValue db)).sum))

/-- Python `round(q, k)`: round to nearest at `k` decimal places
(ties modelled as round-half-up). -/
def roundTo (k : Nat) (q : Rat) : Rat :=
  ((round (q * ((10 : Rat) ^ k)) : Int) : Rat) / ((10 : Rat) ^ k)

/-- One element of the status-distribution response. -/
structure StatusDistEntry where
  status : OrderStatus
  count : Nat
  percentage : Rat
  total_value : Rat
deriving DecidableEq

/-- `GET /orders/analytics/status-distribution` —
`get_order_status_distribution` in orders.py (lines 820-885).  The
percentage of a group is guarded: when the total count is zero it is 0
rather than a division. -/
def get_order_status_distribution (db : DB) (f : DistFilters)
    (today : Int) : List StatusDistEntry :=
  let groups := distGroups db f today
  let total : Nat := (groups.map (fun g => g.2.1)).sum
  groups.map (fun g =>
    { status := g.1
      count := g.2.1
      percentage :=
        if total > 0 then roundTo 1 ((g.2.1 : Rat) / (total : Rat) * 100)
        else 0
      total_value := g.2.2 })

/-- Inner joins of the inventory queries: store and product must
exist. -/
def invJoinOk (db : DB) (r : InventoryRow) : Bool :=
  storeExists db r.store_id && productExists db r.product_id

/-- `if region and region != "all"` then `s.region = %s` for an
inventory row. -/
def invRegionCond (db : DB) (region : Option String)
    (r : InventoryRow) : Bool :=
  match region with
  | some s =>
      if !(s == emptyStr) && !(s == allStr) then
        match lookupStore db r.store_id with
        | some st => st.region == s
        | none => false
      else true
  | none => true

/-- `if category and category != "all"` then `p.category = %s` for an
inventory row. -/
def invCategoryCond (db : DB) (category : Option String)
    (r : InventoryRow) : Bool :=
  match category with
  | some c =>
      if !(c == emptyStr) && !(c == allStr) then
        match lookupProduct db r.product_id with
        | some p => p.category == c
        | none => false
      else true
  | none => true

/-- `quantity_cases * unit_price` for an inventory row. -/
def invValue (db : DB) (r : InventoryRow) : Rat :=
  match lookupProduct db r.product_id with
  | some p => (r.quantity_cases : Rat) * p.unit_price
  | none => 0

/-- The joined, region-filtered inventory rows used by
`get_category_distribution` (inventory.py lines 226-284). -/
def invRows (db : DB) (region : Option String) : List InventoryRow :=
  db.inventory.filter (fun r => invJoinOk db r && invRegionCond db region r)

/-- `COALESCE(SUM(quantity_cases * unit_price), 0)` — the empty-sum case
is exactly the `NULL`-to-0 coalesce. -/
def inventoryTotalValue (db : DB) (region : Option String) : Rat :=
  ((invRows db region).map (invValue db)).sum

/-- One element of the category-distribution response
(`CategoryDistribution` in schemas.py). -/
structure CategoryDistEntry where
  category : String
  value : Rat
  percentage : Rat
deriving DecidableEq

/-- `GET /inventory/categories` — `get_category_distribution` in
inventory.py (lines 226-289).  The percentage is guarded: a zero total
value yields 0 rather than a division. -/
def get_category_distribution (db : DB) (region : Option String) :
    List CategoryDistEntry :=
  let rows := invRows db region
  let total := inventoryTotalValue db region
  ((rows.filterMap (fun r => (lookupProduct db r.product_id).map
      (fun p => p.category))).dedup).map (fun c =>
    let v := ((rows.filter (fun r =>
        (lookupProduct db r.product_id).map (fun p => p.category)
          == some c)).map (invValue db)).sum
    { category := c
      value := v
      percentage := if total > 0 then roundTo 2 (v / total * 100) else 0 })

/-- The KPI response (`KPIData` in schemas.py). -/
structure KPIData where
  total_inventory_value : Rat
  total_products : Nat
  low_stock_alerts : Nat
  average_turnover : Rat
deriving DecidableEq

/-- `GET /inventory/kpi` — `get_kpi_data` in inventory.py (lines
103-174): total value via `COALESCE(SUM(...), 0)`, distinct product
count, low-stock count at threshold 50, and a hardcoded 7.5 turnover
placeholder. -/
def get_kpi_data (db : DB) (region category : Option String) : KPIData :=
  let rows := db.inventory.filter (fun r =>
    invJoinOk db r && invRegionCond db region r && invCategoryCond db category r)
  { total_inventory_value := (rows.map (invValue db)).sum
    total_products := ((rows.map (fun r => r.product_id)).dedup).length
    low_stock_alerts := (rows.filter (fun r =>
      decide (r.quantity_cases - r.reserved_cases ≤ 50))).length
    average_turnover := (15 : Rat) / 2 }

/-- One point of the demand-forecast response (a dict in the handler). -/
structure ForecastPoint where
  date : Int
  order_count : Int
  total_cases : Int
  total_value : Rat
  avg_order_size : Rat
  is_forecast : Bool
deriving DecidableEq

/-- Row filter of the demand-forecast historical query (orders.py lines
904-926). -/
def forecastMatches (db : DB) (days_back : Int) (region : Option String)
    (today : Int) (o : OrderRow) : Bool :=
  summaryJoinOk db o &&
  decide (o.order_date ≤ today) &&
  decide (today - days_back ≤ o.order_date) &&
  analyticsRegionCond db region o

/-- Average of a list of rationals (`sum(l)/len(l)`). -/
def ratAvg (l : List Rat) : Rat := l.sum / (l.length : Rat)

/-- Python `int(q)` on a float: truncation toward zero. -/
def truncRat (q : Rat) : Int :=
  if q < 0 then -(Int.floor (-q)) else Int.floor q

/-- The weekly seasonality multipliers of the forecast, keyed by
`datetime.weekday()` (Monday = 0 ... Sunday = 6); day numbers are taken
with day 0 a Monday, so the weekday of day `d` is `d % 7`. -/
def seasonalFactor (wd : Int) : Rat :=
  if wd == 6 then (7 : Rat) / 10
  else if wd == 5 then (4 : Rat) / 5
  else if wd == 1 || wd == 2 || wd == 3 then (11 : Rat) / 10
  else 1

/-- The daily historical points of the forecast: the grouped-by-day
query (`GROUP BY DATE(order_date) ORDER BY order_date`) rendered into
point dicts. -/
def historicalPoints (db : DB) (days_back : Int) (region : Option String)
    (today : Int) : List ForecastPoint :=
  let rows := db.orders.filter (forecastMatches db days_back region today)
  (((rows.map (fun o => o.order_date)).dedup).mergeSort
      (fun a b => decide (a ≤ b))).map (fun dt =>
    let g := rows.filter (fun o => o.order_date == dt)
    { date := dt
      order_count := (g.length : Int)
      total_cases := (g.map (fun o => o.quantity_cases)).sum
      total_value := (g.map (orderValue db)).sum
      avg_order_size := ((g.map (fun o => o.quantity_cases)).sum : Rat)
        / (g.length : Rat)
      is_forecast := false })

/-- `GET /orders/analytics/demand-forecast` — `get_demand_forecast` in
orders.py (lines 888-1025): empty history returns the empty list; with
at least 7 daily points, a 7-day moving average, a clamped week-on-week
growth rate and weekly seasonality extrapolate `days_forward` points. -/
def get_demand_forecast (db : DB) (days_back : Int) (days_forward : Nat)
    (region : Option String) (today : Int) : List ForecastPoint :=
  let pts := historicalPoints db days_back region today
  if pts.isEmpty then []
  else if 7 ≤ pts.length then
    let last7 := pts.drop (pts.length - 7)
    let avg_orders := ratAvg (last7.map (fun p => (p.order_count : Rat)))
    let avg_cases := ratAvg (last7.map (fun p => (p.total_cases : Rat)))
    let avg_value := ratAvg (last7.map (fun p => p.total_value))
    let avg_size := ratAvg (last7.map (fun p => p.avg_order_size))
    let growth_rate : Rat :=
      if 14 ≤ pts.length then
        let prev_week := (pts.drop (pts.length - 14)).take 7
        let pw := ((prev_week.map (fun p => (p.order_count : Rat))).sum) / 7
        let g := if pw > 0 then (avg_orders - pw) / pw else 0
        max (-((1 : Rat) / 5)) (min ((1 : Rat) / 5) g)
      else 0
    let last_date := ((pts.getLast?).map (fun p => p.date)).getD 0
    let forecast := (List.range days_forward).map (fun j =>
      let i : Int := (j : Int) + 1
      let fd := last_date + i
      let sf := seasonalFactor (fd % 7)
      let tf := 1 + growth_rate * (i : Rat) / 7
      ({ date := fd
         order_count := max 1 (truncRat (avg_orders * sf * tf))
         total_cases := max 1 (truncRat (avg_cases * sf * tf))
         total_value := roundTo 2 (max 1 (avg_value * sf * tf))
         avg_order_size := roundTo 2 avg_size
         is_forecast := true } : ForecastPoint))
    pts ++ forecast
  else pts

/-! Concrete sample data, mirroring the shape of the seeded demo
database: two stores, one product, three users. -/

def demoStores : List StoreRow :=
  [{ store_id := 1, region := "West" }, { store_id := 2, region := "East" }]

def demoProducts : List ProductRow :=
  [{ product_id := 1, category := "Beer", unit_price := 12 }]

def demoUsers : List Nat := [1, 2, 9]

def bogusStr : String := "bogus"
def cancelReasonEx : String := "out of stock"

/-- A fulfilled (terminal) order. -/
def o1 : OrderRow :=
  { order_id := 1, order_number := "ORD000001", from_store_id := some 1,
    to_store_id := 2, product_id := 1, quantity_cases := 10,
    order_status := OrderStatus.fulfilled, requested_by := 1,
    approved_by := some 2, order_date := 0, approved_date := some 0,
    fulfilled_date := some 1, notes := none, version := 3 }

def dbA : DB :=
  { orders := [o1], inventory := [], stores := demoStores,
    products := demoProducts, users := demoUsers, next_order_id := 2 }

/-- A pending order asking for far more than the supplying store has. -/
def oB : OrderRow :=
  { order_id := 1, order_number := "ORD000001", from_store_id := some 1,
    to_store_id := 2, product_id := 1, quantity_cases := 100,
    order_status := OrderStatus.pending_review, requested_by := 1,
    approved_by := none, order_date := 0, approved_date := none,
    fulfilled_date := none, notes := none, version := 1 }

/-- Stock at the supplying store: 5 on hand, 5 reserved, 0 available. -/
def invB : InventoryRow :=
  { inventory_id := 1, store_id := 1, product_id := 1, quantity_cases := 5,
    reserved_cases := 5, last_updated := 0, version := 1 }

def dbB : DB :=
  { orders := [oB], inventory := [invB], stores := demoStores,
    products := demoProducts, users := demoUsers, next_order_id := 2 }

def dbB2 : DB :=
  { dbB with orders := [statusUpdateRow OrderStatus.approved (some 9) 4 oB] }

/-- An approved order for 10 cases from store 1 to store 2. -/
def oC : OrderRow :=
  { order_id := 1, order_number := "ORD000001", from_store_id := some 1,
    to_store_id := 2, product_id := 1, quantity_cases := 10,
    order_status := OrderStatus.approved, requested_by := 1,
    approved_by := some 2, order_date := 0, approved_date := some 1,
    fulfilled_date := none, notes := none, version := 2 }

def invC1 : InventoryRow :=
  { inventory_id := 1, store_id := 1, product_id := 1, quantity_cases := 50,
    reserved_cases := 10, last_updated := 0, version := 1 }

def invC2 : InventoryRow :=
  { inventory_id := 2, store_id := 2, product_id := 1, quantity_cases := 20,
    reserved_cases := 0, last_updated := 0, version := 1 }

def dbC : DB :=
  { orders := [oC], inventory := [invC1, invC2], stores := demoStores,
    products := demoProducts, users := demoUsers, next_order_id := 2 }

def dbC2 : DB :=
  { dbC with orders := [statusUpdateRow OrderStatus.fulfilled none 9 oC] }

/-- An inventory row satisfying the reservation invariant. -/
def invD : InventoryRow :=
  { inventory_id := 1, store_id := 1, product_id := 1, quantity_cases := 5,
    reserved_cases := 0, last_updated := 0, version := 1 }

def dbD : DB :=
  { orders := [], inventory := [invD], stores := demoStores,
    products := demoProducts, users := demoUsers, next_order_id := 1 }

def dbD2 : DB :=
  { dbD with inventory :=
      [{ invD with reserved_cases := 10, last_updated := 7, version := 2 }] }

/-- A pending order used to exercise each mutating endpoint once. -/
def oE : OrderRow :=
  { order_id := 1, order_number := "ORD000001", from_store_id := some 1,
    to_store_id := 2, product_id := 1, quantity_cases := 10,
    order_status := OrderStatus.pending_review, requested_by := 1,
    approved_by := none, order_date := 0, approved_date := none,
    fulfilled_date := none, notes := none, version := 1 }

def invE : InventoryRow :=
  { inventory_id := 1, store_id := 1, product_id := 1, quantity_cases := 50,
    reserved_cases := 5, last_updated := 0, version := 1 }

def dbE : DB :=
  { orders := [oE], inventory := [invE], stores := demoStores,
    products := demoProducts, users := demoUsers, next_order_id := 2 }

def dbE1 : DB :=
  { dbE with orders := [statusUpdateRow OrderStatus.approved (some 2) 3 oE] }

def dbE2 : DB :=
  { dbE with orders := [{ oE with quantity_cases := 25, version := 2 }] }

def oE3 : OrderRow :=
  { oE with order_status := OrderStatus.cancelled,
            notes := some (cancellationPrefix ++ cancelReasonEx),
            version := 2 }

def dbE3 : DB := { dbE with orders := [oE3] }

def dbE4 : DB :=
  { dbE with inventory :=
      [{ invE with quantity_cases := 99, last_updated := 3, version := 2 }] }

/-- An order whose creation date (day 3) lies after the reference date
(day 0). -/
def oF : OrderRow :=
  { order_id := 1, order_number := "ORD000001", from_store_id := some 1,
    to_store_id := 2, product_id := 1, quantity_cases := 10,
    order_status := OrderStatus.pending_review, requested_by := 1,
    approved_by := none, order_date := 3, approved_date := none,
    fulfilled_date := none, notes := none, version := 1 }

def dbF : DB :=
  { orders := [oF], inventory := [], stores := demoStores,
    products := demoProducts, users := demoUsers, next_order_id := 2 }

/-- The as-of filter pinned to day 0. -/
def fF : OrderFilters := { as_of_date := some 0 }

/-- A create request with quantity 0 and otherwise valid references. -/
def cG : OrderCreate :=
  { to_store_id := 2, product_id := 1, quantity_cases := 0, requested_by := 1 }

/-- A create request whose destination store does not exist. -/
def cBad : OrderCreate :=
  { to_store_id := 99, product_id := 1, quantity_cases := 5, requested_by := 1 }

def dbG : DB :=
  { orders := [], inventory := [], stores := demoStores,
    products := demoProducts, users := demoUsers, next_order_id := 1 }

def rowG : OrderRow :=
  { order_id := 1, order_number := "ORD000001", from_store_id := none,
    to_store_id := 2, product_id := 1, quantity_cases := 0,
    order_status := OrderStatus.pending_review, requested_by := 1,
    approved_by := none, order_date := 0, approved_date := none,
    fulfilled_date := none, notes := none, version := 1 }

def dbG2 : DB :=
  { dbG with orders := [rowG], next_order_id := 2 }

/-- A cancellable pending order alongside a terminal one. -/
def oH : OrderRow :=
  { order_id := 1, order_number := "ORD000001", from_store_id := some 1,
    to_store_id := 2, product_id := 1, quantity_cases := 10,
    order_status := OrderStatus.pending_review, requested_by := 1,
    approved_by := none, order_date := 0, approved_date := none,
    fulfilled_date := none, notes := none, version := 1 }

def oH2 : OrderRow :=
  { order_id := 2, order_number := "ORD000002", from_store_id := some 1,
    to_store_id := 2, product_id := 1, quantity_cases := 4,
    order_status := OrderStatus.fulfilled, requested_by := 1,
    approved_by := some 2, order_date := 0, approved_date := some 0,
    fulfilled_date := some 1, notes := none, version := 3 }

def dbH : DB :=
  { orders := [oH, oH2], inventory := [invE], stores := demoStores,
    products := demoProducts, users := demoUsers, next_order_id := 3 }

/-- The completely empty database. -/
def dbEmpty : DB :=
  { orders := [], inventory := [], stores := [], products := [],
    users := [], next_order_id := 1 }

/-! Helper lemmas about the row transformers. -/

theorem statusUpdateRow_order_id (st : OrderStatus) (ab : Option Nat)
    (now : Int) (o : OrderRow) :
    (statusUpdateRow st ab now o).order_id = o.order_id := by
  cases st <;> rfl

theorem statusUpdateRow_order_status (st : OrderStatus) (ab : Option Nat)
    (now : Int) (o : OrderRow) :
    (statusUpdateRow st ab now o).order_status = st := by
  cases st <;> rfl

theorem statusUpdateRow_version (st : OrderStatus) (ab : Option Nat)
    (now : Int) (o : OrderRow) :
    (statusUpdateRow st ab now o).version = o.version + 1 := by
  cases st <;> rfl

theorem mem_map_if_pos {α : Type} {l : List α} {p : α → Bool} {f : α → α}
    {x : α} (hx : x ∈ l) (hp : p x = true) :
    f x ∈ l.map (fun y => if p y then f y else y) := by
  have h := List.mem_map_of_mem (fun y => if p y then f y else y) hx
  simpa [hp] using h

theorem mem_map_if_neg {α : Type} {l : List α} {p : α → Bool} {f : α → α}
    {x : α} (hx : x ∈ l) (hp : p x = false) :
    x ∈ l.map (fun y => if p y then f y else y) := by
  have h := List.mem_map_of_mem (fun y => if p y then f y else y) hx
  simpa [hp] using h

theorem orders_any_id {l : List OrderRow} {oid : Nat} {o : OrderRow}
    (ho : o ∈ l) (hid : o.order_id = oid) :
    l.any (fun x => x.order_id == oid) = true :=
  List.any_eq_true.mpr ⟨o, ho, by simp [hid]⟩

theorem activeWithId_true {oid : Nat} {o : OrderRow}
    (hid : o.order_id = oid)
    (hst : o.order_status = OrderStatus.pending_review ∨
           o.order_status = OrderStatus.approved) :
    activeWithId oid o = true := by
  unfold activeWithId
  rcases hst with h | h <;> simp [hid, h]

theorem activeWithId_id {oid : Nat} {o : OrderRow}
    (h : activeWithId oid o = true) : o.order_id = oid := by
  unfold activeWithId at h
  simp only [Bool.and_eq_true, beq_iff_eq] at h
  exact h.1

theorem update_order_status_ok {db : DB} {oid : Nat} {s : String}
    {st : OrderStatus} (ab : Option Nat) (now : Int)
    (hp : parseStatus s = some st)
    (h : db.orders.any (fun o => o.order_id == oid) = true) :
    update_order_status db oid s ab now =
      Except.ok { db with orders := db.orders.map (fun o =>
        if o.order_id == oid then statusUpdateRow st ab now o else o) } := by
  simp [update_order_status, hp, h]

/-- C1: corrected.  The claimed transition graph does not exist in
`update_order_status`: the handler validates only that the requested
status string is one of the four known values.  An unknown string gives
a 400 and a missing order a 404 (the transaction rolls back, so state is
unchanged); but for ANY existing order ANY of the four statuses is
applied regardless of the current status, with the version bumped and
inventory untouched — there is no `InvalidTransition` rejection. -/
theorem C1_status_update_unguarded (db : DB) (oid : Nat) (s : String)
    (ab : Option Nat) (now : Int) :
    (parseStatus s = none →
      update_order_status db oid s ab now =
        Except.error (ApiError.badRequest invalidStatusMsg)) ∧
    ((∀ o ∈ db.orders, o.order_id ≠ oid) → parseStatus s ≠ none →
      update_order_status db oid s ab now =
        Except.error (ApiError.notFound orderNotFoundMsg)) ∧
    (∀ st : OrderStatus, ∀ o ∈ db.orders,
      parseStatus s = some st → o.order_id = oid →
      ∃ db2, update_order_status db oid s ab now = Except.ok db2 ∧
        db2.inventory = db.inventory ∧
        statusUpdateRow st ab now o ∈ db2.orders ∧
        (statusUpdateRow st ab now o).order_status = st ∧
        (statusUpdateRow st ab now o).version = o.version + 1) := by
  refine ⟨?_, ?_, ?_⟩
  · intro h
    simp [update_order_status, h]
  · intro hall hsome
    cases hps : parseStatus s with
    | none => exact absurd hps hsome
    | some st =>
        have hany : db.orders.any (fun x => x.order_id == oid) = false := by
          rw [List.any_eq_false]
          intro o ho
          simp [hall o ho]
        simp [update_order_status, hps, hany]
  · intro st o ho hps hid
    refine ⟨_, update_order_status_ok ab now hps (orders_any_id ho hid),
            rfl, ?_, statusUpdateRow_order_status st ab now o,
            statusUpdateRow_version st ab now o⟩
    exact mem_map_if_pos ho (by simp [hid])

/-- C1 witness: the three branches exercised on a one-order database. -/
theorem C1_witness :
    (update_order_status dbA 1 bogusStr none 0 =
      Except.error (ApiError.badRequest invalidStatusMsg)) ∧
    (update_order_status dbA 2 approvedStr none 0 =
      Except.error (ApiError.notFound orderNotFoundMsg)) ∧
    (∃ db2, update_order_status dbA 1 approvedStr (some 2) 5 = Except.ok db2 ∧
      db2.inventory = dbA.inventory ∧
      statusUpdateRow OrderStatus.approved (some 2) 5 o1 ∈ db2.orders ∧
      (statusUpdateRow OrderStatus.approved (some 2) 5 o1).order_status =
        OrderStatus.approved ∧
      (statusUpdateRow OrderStatus.approved (some 2) 5 o1).version =
        o1.version + 1) := by
  refine ⟨(C1_status_update_unguarded dbA 1 bogusStr none 0).1 (by decide),
          (C1_status_update_unguarded dbA 2 approvedStr none 0).2.1
            (by decide) (by decide),
          (C1_status_update_unguarded dbA 1 approvedStr (some 2) 5).2.2
            OrderStatus.approved o1 (by decide) (by decide) (by decide)⟩

/-- C1 counterexample: the terminal transition fulfilled → approved is
not an edge of the claimed graph, yet the handler accepts it, changes
the status and bumps the version. -/
theorem C1_counterexample :
    o1.order_status = OrderStatus.fulfilled ∧
    update_order_status dbA 1 approvedStr (some 2) 5 =
      Except.ok { dbA with orders :=
        [statusUpdateRow OrderStatus.approved (some 2) 5 o1] } ∧
    (statusUpdateRow OrderStatus.approved (some 2) 5 o1).order_status =
      OrderStatus.approved ∧
    (statusUpdateRow OrderStatus.approved (some 2) 5 o1).version =
      o1.version + 1 := by
  decide

/-- C2: corrected.  Approval never reads or writes the `inventory`
table and performs no stock check at all: a pending order whose quantity
exceeds the available stock (or any pending order) is approved
unconditionally, with the version bumped and every inventory row left
exactly as it was — no `InsufficientStock` error exists in the
handler. -/
theorem C2_approve_ignores_stock (db : DB) (oid : Nat) (ab : Option Nat)
    (now : Int) (o : OrderRow) (ho : o ∈ db.orders) (hid : o.order_id = oid)
    (hst : o.order_status = OrderStatus.pending_review) :
    ∃ db2, update_order_status db oid approvedStr ab now = Except.ok db2 ∧
      db2.inventory = db.inventory ∧
      statusUpdateRow OrderStatus.approved ab now o ∈ db2.orders ∧
      (statusUpdateRow OrderStatus.approved ab now o).order_status =
        OrderStatus.approved ∧
      (statusUpdateRow OrderStatus.approved ab now o).version =
        o.version + 1 := by
  refine ⟨_, update_order_status_ok ab now rfl (orders_any_id ho hid),
          rfl, ?_, rfl, rfl⟩
  exact mem_map_if_pos ho (by simp [hid])

/-- C2 witness: the theorem applied to a pending order for 100 cases
with 0 cases available. -/
theorem C2_witness :
    ∃ db2, update_order_status dbB 1 approvedStr (some 9) 4 = Except.ok db2 ∧
      db2.inventory = dbB.inventory ∧
      statusUpdateRow OrderStatus.approved (some 9) 4 oB ∈ db2.orders ∧
      (statusUpdateRow OrderStatus.approved (some 9) 4 oB).order_status =
        OrderStatus.approved ∧
      (statusUpdateRow OrderStatus.approved (some 9) 4 oB).version =
        oB.version + 1 :=
  C2_approve_ignores_stock dbB 1 (some 9) 4 oB (by decide) (by decide)
    (by decide)

/-- C2 counterexample: available stock is 0 and the requested quantity
is 100, yet approval succeeds, the order becomes approved and the
inventory rows are untouched. -/
theorem C2_counterexample :
    oB.order_status = OrderStatus.pending_review ∧
    invB.quantity_cases - invB.reserved_cases < oB.quantity_cases ∧
    update_order_status dbB 1 approvedStr (some 9) 4 = Except.ok dbB2 ∧
    dbB2.inventory = dbB.inventory ∧
    (statusUpdateRow OrderStatus.approved (some 9) 4 oB).order_status =
      OrderStatus.approved := by
  decide

/-- C3: corrected.  Fulfilment only touches the `orders` table: it sets
the status, the fulfilment date and the bumped version, and performs no
inventory transfer whatsoever — `quantity_cases` and `reserved_cases`
of every inventory row are left exactly as they were. -/
theorem C3_fulfill_no_inventory_effect (db : DB) (oid : Nat)
    (ab : Option Nat) (now : Int) (o : OrderRow) (ho : o ∈ db.orders)
    (hid : o.order_id = oid) (hst : o.order_status = OrderStatus.approved) :
    ∃ db2, update_order_status db oid fulfilledStr ab now = Except.ok db2 ∧
      db2.inventory = db.inventory ∧
      statusUpdateRow OrderStatus.fulfilled ab now o ∈ db2.orders ∧
      (statusUpdateRow OrderStatus.fulfilled ab now o).order_status =
        OrderStatus.fulfilled ∧
      (statusUpdateRow OrderStatus.fulfilled ab now o).fulfilled_date =
        some now ∧
      (statusUpdateRow OrderStatus.fulfilled ab now o).version =
        o.version + 1 := by
  refine ⟨_, update_order_status_ok ab now rfl (orders_any_id ho hid),
          rfl, ?_, rfl, rfl, rfl⟩
  exact mem_map_if_pos ho (by simp [hid])

/-- C3 witness: the theorem applied to an approved 10-case order. -/
theorem C3_witness :
    ∃ db2, update_order_status dbC 1 fulfilledStr none 9 = Except.ok db2 ∧
      db2.inventory = dbC.inventory ∧
      statusUpdateRow OrderStatus.fulfilled none 9 oC ∈ db2.orders ∧
      (statusUpdateRow OrderStatus.fulfilled none 9 oC).order_status =
        OrderStatus.fulfilled ∧
      (statusUpdateRow OrderStatus.fulfilled none 9 oC).fulfilled_date =
        some 9 ∧
      (statusUpdateRow OrderStatus.fulfilled none 9 oC).version =
        oC.version + 1 :=
  C3_fulfill_no_inventory_effect dbC 1 none 9 oC (by decide) (by decide)
    (by decide)

/-- C3 counterexample: fulfilling an approved order for 10 cases from
store 1 to store 2 leaves both inventory rows untouched — the source
keeps 50 on hand (the claim requires 40) and its reservation stays
at 10. -/
theorem C3_counterexample :
    oC.order_status = OrderStatus.approved ∧
    oC.quantity_cases = 10 ∧
    update_order_status dbC 1 fulfilledStr none 9 = Except.ok dbC2 ∧
    dbC2.inventory = dbC.inventory ∧
    (dbC2.inventory.map (fun r => r.quantity_cases)) = [50, 20] ∧
    ¬ ((50 : Int) = 50 - oC.quantity_cases) := by
  decide

/-- C4: corrected.  The administrative inventory update applies the
supplied values verbatim: after a successful `PUT /inventory/(id)` the
record holds exactly the supplied `quantity_cases` / `reserved_cases`
(old values where omitted) with the version bumped, and the invariant
`0 <= reserved <= quantity` holds afterwards IF AND ONLY IF the
resulting values happen to satisfy it — no validation rejects values
that violate it, so the operation does not preserve the invariant. -/
theorem C4_update_inventory_unchecked (db : DB) (iid : Nat)
    (q r : Option Int) (now : Int) (iv : InventoryRow)
    (hiv : iv ∈ db.inventory) (hid : iv.inventory_id = iid)
    (hsome : q.isSome = true ∨ r.isSome = true) :
    ∃ db2, update_inventory db iid q r now = Except.ok db2 ∧
      db2.orders = db.orders ∧
      ∃ iv2 ∈ db2.inventory, iv2.inventory_id = iid ∧
        iv2.quantity_cases = q.getD iv.quantity_cases ∧
        iv2.reserved_cases = r.getD iv.reserved_cases ∧
        iv2.version = iv.version + 1 ∧
        (invInvariant iv2 ↔
          0 ≤ r.getD iv.reserved_cases ∧
          r.getD iv.reserved_cases ≤ q.getD iv.quantity_cases) := by
  have hnone : (q.isNone && r.isNone) = false := by
    rcases hsome with h | h
    · cases q with
      | none => simp at h
      | some a => simp
    · cases r with
      | none => simp at h
      | some a => simp
  have hany : db.inventory.any (fun x => x.inventory_id == iid) = true :=
    List.any_eq_true.mpr ⟨iv, hiv, by simp [hid]⟩
  have hok : update_inventory db iid q r now =
      Except.ok { db with inventory := db.inventory.map (fun x =>
        if x.inventory_id == iid then
          { x with quantity_cases := q.getD x.quantity_cases,
                   reserved_cases := r.getD x.reserved_cases,
                   last_updated := now, version := x.version + 1 }
        else x) } := by
    simp [update_inventory, hnone, hany]
  refine ⟨_, hok, rfl, ?_⟩
  exact ⟨_, mem_map_if_pos hiv (by simp [hid]), hid, rfl, rfl, rfl, Iff.rfl⟩

/-- C4 witness: the theorem applied to a record with 5 on hand and a
requested reservation of 10. -/
theorem C4_witness :
    ∃ db2, update_inventory dbD 1 none (some 10) 7 = Except.ok db2 ∧
      db2.orders = dbD.orders ∧
      ∃ iv2 ∈ db2.inventory, iv2.inventory_id = 1 ∧
        iv2.quantity_cases = (none : Option Int).getD invD.quantity_cases ∧
        iv2.reserved_cases = (some (10 : Int)).getD invD.reserved_cases ∧
        iv2.version = invD.version + 1 ∧
        (invInvariant iv2 ↔
          0 ≤ (some (10 : Int)).getD invD.reserved_cases ∧
          (some (10 : Int)).getD invD.reserved_cases ≤
            (none : Option Int).getD invD.quantity_cases) :=
  C4_update_inventory_unchecked dbD 1 none (some 10) 7 invD (by decide)
    (by decide) (Or.inr rfl)

/-- C4 counterexample: a record with `quantity_cases = 5` satisfying
the invariant accepts an update setting `reserved_cases = 10`, after
which `reserved_cases > quantity_cases`. -/
theorem C4_counterexample :
    invInvariant invD ∧
    update_inventory dbD 1 none (some 10) 7 = Except.ok dbD2 ∧
    ∃ iv2 ∈ dbD2.inventory, ¬ invInvariant iv2 := by
  decide

/-- C5: confirmed.  Each of the four mutating endpoints — status
update, field update, cancel, inventory update — on success bumps the
version of every row it touches by exactly 1, leaves every other row of
its table untouched, and never writes the other table.  (The read-only
endpoints are embedded as pure projections of the state, mirroring the
SELECT-only queries they run, so they change nothing by
construction.) -/
theorem C5_version_discipline (db : DB) (oid iid : Nat) (s : String)
    (ab : Option Nat) (now : Int) (uq : Option Int) (unotes : Option String)
    (iq ires : Option Int) (reason : String) :
    (∀ db2, update_order_status db oid s ab now = Except.ok db2 →
      db2.inventory = db.inventory ∧
      (∀ o ∈ db.orders, o.order_id ≠ oid → o ∈ db2.orders) ∧
      (∀ o ∈ db.orders, o.order_id = oid →
        ∃ o2 ∈ db2.orders, o2.order_id = oid ∧ o2.version = o.version + 1)) ∧
    (∀ db2, update_order db oid uq unotes = Except.ok db2 →
      db2.inventory = db.inventory ∧
      (∀ o ∈ db.orders, activeWithId oid o = false → o ∈ db2.orders) ∧
      (∀ o ∈ db.orders, activeWithId oid o = true →
        ∃ o2 ∈ db2.orders, o2.order_id = oid ∧ o2.version = o.version + 1)) ∧
    (∀ db2, cancel_order db oid reason = Except.ok db2 →
      db2.inventory = db.inventory ∧
      (∀ o ∈ db.orders, activeWithId oid o = false → o ∈ db2.orders) ∧
      (∀ o ∈ db.orders, activeWithId oid o = true →
        ∃ o2 ∈ db2.orders, o2.order_id = oid ∧ o2.version = o.version + 1)) ∧
    (∀ db2, update_inventory db iid iq ires now = Except.ok db2 →
      db2.orders = db.orders ∧
      (∀ iv ∈ db.inventory, iv.inventory_id ≠ iid → iv ∈ db2.inventory) ∧
      (∀ iv ∈ db.inventory, iv.inventory_id = iid →
        ∃ iv2 ∈ db2.inventory, iv2.inventory_id = iid ∧
          iv2.version = iv.version + 1)) := by
  refine ⟨?_, ?_, ?_, ?_⟩
  · intro db2 h
    cases hps : parseStatus s with
    | none =>
        rw [show update_order_status db oid s ab now =
              Except.error (ApiError.badRequest invalidStatusMsg) from
            by simp [update_order_status, hps]] at h
        simp at h
    | some st =>
        by_cases hany : db.orders.any (fun o => o.order_id == oid) = true
        · rw [update_order_status_ok ab now hps hany] at h
          simp only [Except.ok.injEq] at h
          subst h
          refine ⟨rfl, ?_, ?_⟩
          · intro o ho hne
            exact mem_map_if_neg ho (by simp [hne])
          · intro o ho hid
            refine ⟨statusUpdateRow st ab now o,
                    mem_map_if_pos ho (by simp [hid]), ?_,
                    statusUpdateRow_version st ab now o⟩
            rw [statusUpdateRow_order_id]
            exact hid
        · have hf : db.orders.any (fun o => o.order_id == oid) = false :=
            Bool.eq_false_iff.mpr hany
          rw [show update_order_status db oid s ab now =
                Except.error (ApiError.notFound orderNotFoundMsg) from
              by simp [update_order_status, hps, hf]] at h
          simp at h
  · intro db2 h
    by_cases h1 : (uq.isNone && unotes.isNone) = true
    · rw [show update_order db oid uq unotes =
            Except.error (ApiError.badRequest noFieldsMsg) from
          by simp [update_order, h1]] at h
      simp at h
    · have h1f : (uq.isNone && unotes.isNone) = false :=
        Bool.eq_false_iff.mpr h1
      by_cases h2 : db.orders.any (activeWithId oid) = true
      · rw [show update_order db oid uq unotes =
              Except.ok { db with orders := db.orders.map (fun o =>
                if activeWithId oid o then
                  { o with quantity_cases := uq.getD o.quantity_cases,
                           notes := setField unotes o.notes,
                           version := o.version + 1 }
                else o) } from by simp [update_order, h1f, h2]] at h
        simp only [Except.ok.injEq] at h
        subst h
        refine ⟨rfl, ?_, ?_⟩
        · intro o ho hne
          exact mem_map_if_neg ho hne
        · intro o ho hac
          refine ⟨_, mem_map_if_pos ho hac, ?_, rfl⟩
          show o.order_id = oid
          exact activeWithId_id hac
      · have h2f : db.orders.any (activeWithId oid) = false :=
          Bool.eq_false_iff.mpr h2
        rw [show update_order db oid uq unotes =
              Except.error (ApiError.notFound cannotModifyMsg) from
            by simp [update_order, h1f, h2f]] at h
        simp at h
  · intro db2 h
    by_cases h2 : db.orders.any (activeWithId oid) = true
    · rw [show cancel_order db oid reason =
            Except.ok { db with orders := db.orders.map (fun o =>
              if activeWithId oid o then
                { o with order_status := OrderStatus.cancelled,
                         notes := some (cancelNotes reason o.notes),
                         version := o.version + 1 }
              else o) } from by simp [cancel_order, h2]] at h
      simp only [Except.ok.injEq] at h
      subst h
      refine ⟨rfl, ?_, ?_⟩
      · intro o ho hne
        exact mem_map_if_neg ho hne
      · intro o ho hac
        refine ⟨_, mem_map_if_pos ho hac, ?_, rfl⟩
        show o.order_id = oid
        exact activeWithId_id hac
    · have h2f : db.orders.any (activeWithId oid) = false :=
        Bool.eq_false_iff.mpr h2
      rw [show cancel_order db oid reason =
            Except.error (ApiError.notFound cannotCancelMsg) from
          by simp [cancel_order, h2f]] at h
      simp at h
  · intro db2 h
    by_cases h1 : (iq.isNone && ires.isNone) = true
    · rw [show update_inventory db iid iq ires now =
            Except.error (ApiError.badRequest noFieldsMsg) from
          by simp [update_inventory, h1]] at h
      simp at h
    · have h1f : (iq.isNone && ires.isNone) = false :=
        Bool.eq_false_iff.mpr h1
      by_cases h2 : db.inventory.any (fun x => x.inventory_id == iid) = true
      · rw [show update_inventory db iid iq ires now =
              Except.ok { db with inventory := db.inventory.map (fun x =>
                if x.inventory_id == iid then
                  { x with quantity_cases := iq.getD x.quantity_cases,
                           reserved_cases := ires.getD x.reserved_cases,
                           last_updated := now, version := x.version + 1 }
                else x) } from by simp [update_inventory, h1f, h2]] at h
        simp only [Except.ok.injEq] at h
        subst h
        refine ⟨rfl, ?_, ?_⟩
        · intro iv hiv hne
          exact mem_map_if_neg hiv (by simp [hne])
        · intro iv hiv hid
          exact ⟨_, mem_map_if_pos hiv (by simp [hid]), hid, rfl⟩
      · have h2f : db.inventory.any (fun x => x.inventory_id == iid) = false :=
          Bool.eq_false_iff.mpr h2
        rw [show update_inventory db iid iq ires now =
              Except.error (ApiError.notFound inventoryNotFoundMsg) from
            by simp [update_inventory, h1f, h2f]] at h
        simp at h

/-- C5 witness: one successful call of each mutating endpoint on a
one-order, one-inventory-row database; each bumps the version of its
target from 1 to 2. -/
theorem C5_witness :
    (∃ o2 ∈ dbE1.orders, o2.order_id = 1 ∧ o2.version = oE.version + 1) ∧
    (∃ o2 ∈ dbE2.orders, o2.order_id = 1 ∧ o2.version = oE.version + 1) ∧
    (∃ o2 ∈ dbE3.orders, o2.order_id = 1 ∧ o2.version = oE.version + 1) ∧
    (∃ iv2 ∈ dbE4.inventory, iv2.inventory_id = 1 ∧
      iv2.version = invE.version + 1) := by
  have h := C5_version_discipline dbE 1 1 approvedStr (some 2) 3 (some 25)
    none (some 99) none cancelReasonEx
  exact ⟨(h.1 dbE1 (by decide)).2.2 oE (by decide) (by decide),
         (h.2.1 dbE2 (by decide)).2.2 oE (by decide) (by decide),
         (h.2.2.1 dbE3 (by decide)).2.2 oE (by decide) (by decide),
         (h.2.2.2 dbE4 (by decide)).2.2 invE (by decide) (by decide)⟩

/-- C6: corrected.  The as-of filter of `GET /orders` is not a strict
cutoff: the query condition is `DATE(order_date) <= DATE(as_of) +
INTERVAL '7 days'`, so an order is visible as of date D exactly when its
creation date is at most D + 7 (subject to the remaining filters); in
particular orders created up to 7 days AFTER D are still visible. -/
theorem C6_as_of_grace_window (db : DB) (f : OrderFilters) (today d : Int)
    (o : OrderRow) (hd : f.as_of_date = some d) (ho : o ∈ db.orders) :
    o ∈ get_orders_rows db f today ↔
      (o.order_date ≤ d + 7 ∧ orderRestConds db f today o = true) := by
  unfold get_orders_rows
  rw [List.mem_filter]
  unfold orderMatches
  rw [hd]
  simp [asOfVisible, ho, Bool.and_eq_true]

/-- C6 witness: the characterisation applied to an order created on
day 3 under an as-of date of day 0. -/
theorem C6_witness :
    oF ∈ get_orders_rows dbF fF 0 ↔
      (oF.order_date ≤ (0 : Int) + 7 ∧ orderRestConds dbF fF 0 oF = true) :=
  C6_as_of_grace_window dbF fF 0 0 oF rfl (by decide)

/-- C6 counterexample: with the as-of date pinned to day 0, an order
created on day 3 — strictly after the reference date — still appears in
the result, contradicting the claimed `creation date <= D` rule. -/
theorem C6_counterexample :
    fF.as_of_date = some 0 ∧
    (0 : Int) < oF.order_date ∧
    oF ∈ get_orders_rows dbF fF 0 := by
  decide

/-- C7: corrected.  `create_order` performs no input validation at all:
a quantity of zero or less is accepted and the order is created in
`pending_review` (pydantic's `OrderCreate` places no bound on the
quantity).  A nonexistent destination store, product or requester makes
the database insert violate a foreign-key constraint; the blanket
`except` turns that into a generic 500 server error — not a
`ValidationError`-style 4xx — and the rolled-back transaction leaves no
order behind. -/
theorem C7_create_unvalidated (db : DB) (d : OrderCreate) (now : Int) :
    ((fkOk db d = false ∨ numberConflict db d = true) →
      create_order db d now =
        Except.error (ApiError.serverError createFailedMsg)) ∧
    (fkOk db d = true → numberConflict db d = false →
      ∃ db2 oid, create_order db d now = Except.ok (db2, oid) ∧
        ∃ o ∈ db2.orders, o.order_id = oid ∧
          o.quantity_cases = d.quantity_cases ∧
          o.order_status = OrderStatus.pending_review ∧
          o.version = 1 ∧
          o.to_store_id = d.to_store_id ∧
          o.product_id = d.product_id ∧
          o.requested_by = d.requested_by) := by
  constructor
  · intro h
    have hc : (!fkOk db d || numberConflict db d) = true := by
      rcases h with h | h <;> simp [h]
    simp [create_order, hc]
  · intro h1 h2
    have hc : (!fkOk db d || numberConflict db d) = false := by
      simp [h1, h2]
    refine ⟨{ db with
                orders := db.orders ++ [newOrderRow db d now]
                next_order_id := db.next_order_id + 1 },
            db.next_order_id, ?_, ?_⟩
    · simp [create_order, hc]
    · exact ⟨newOrderRow db d now,
             List.mem_append_right _ (List.mem_singleton.mpr rfl),
             rfl, rfl, rfl, rfl, rfl, rfl, rfl⟩

/-- C7 witness: a dangling destination store yields the 500 error, and
a zero-quantity request with valid references creates the order. -/
theorem C7_witness :
    create_order dbG cBad 0 =
      Except.error (ApiError.serverError createFailedMsg) ∧
    (∃ db2 oid, create_order dbG cG 0 = Except.ok (db2, oid) ∧
      ∃ o ∈ db2.orders, o.order_id = oid ∧
        o.quantity_cases = cG.quantity_cases ∧
        o.order_status = OrderStatus.pending_review ∧
        o.version = 1 ∧
        o.to_store_id = cG.to_store_id ∧
        o.product_id = cG.product_id ∧
        o.requested_by = cG.requested_by) :=
  ⟨(C7_create_unvalidated dbG cBad 0).1 (Or.inl (by decide)),
   (C7_create_unvalidated dbG cG 0).2 (by decide) (by decide)⟩

/-- C7 counterexample: a request with quantity 0 and valid references
succeeds and creates a pending order for 0 cases — no `ValidationError`
is raised for a non-positive quantity. -/
theorem C7_counterexample :
    cG.quantity_cases ≤ 0 ∧
    create_order dbG cG 0 = Except.ok (dbG2, 1) ∧
    ∃ o ∈ dbG2.orders, o.order_id = 1 ∧ o.quantity_cases = 0 ∧
      o.order_status = OrderStatus.pending_review := by
  decide

/-- String concatenation is associative (needed to read the appended
cancellation note). -/
theorem stringAppendAssoc (a b c : String) :
    a ++ b ++ c = a ++ (b ++ c) := by
  cases a with
  | mk la =>
      cases b with
      | mk lb =>
          cases c with
          | mk lc =>
              show String.mk (la ++ lb ++ lc) = String.mk (la ++ (lb ++ lc))
              rw [List.append_assoc]

/-- Whatever the previous notes were, the cancelled order's notes end
with `Cancellation reason: ` followed by the supplied reason. -/
theorem cancelNotes_contains (reason : String) (n : Option String) :
    ∃ pre, cancelNotes reason n = pre ++ cancellationPrefix ++ reason := by
  cases n with
  | none => exact ⟨emptyStr, rfl⟩
  | some s =>
      by_cases h : (s == emptyStr) = true
      · refine ⟨emptyStr, ?_⟩
        simp only [cancelNotes]
        rw [if_pos h]
        rfl
      · refine ⟨s ++ "\n\n", ?_⟩
        have hcn : cancelNotes reason (some s) =
            s ++ cancellationSep ++ reason := by
          simp only [cancelNotes]
          rw [if_neg h]
        rw [hcn,
            show cancellationSep = "\n\n" ++ cancellationPrefix from rfl,
            ← stringAppendAssoc]

/-- C8: confirmed.  Cancelling a pending order with a (non-empty)
reason sets the status to cancelled, bumps the version by exactly 1,
stores notes containing `Cancellation reason: ` plus the reason, and
leaves the inventory table untouched; cancelling an order whose rows
are all fulfilled or cancelled matches no row, so the handler raises
404 and the transaction rolls back with nothing changed. -/
theorem C8_cancel_behaviour (db : DB) (oid : Nat) (reason : String)
    (hr : reason ≠ emptyStr) :
    (∀ o ∈ db.orders, o.order_id = oid →
      o.order_status = OrderStatus.pending_review →
      ∃ db2, cancel_order db oid reason = Except.ok db2 ∧
        db2.inventory = db.inventory ∧
        ∃ o2 ∈ db2.orders, o2.order_id = oid ∧
          o2.order_status = OrderStatus.cancelled ∧
          o2.version = o.version + 1 ∧
          ∃ pre, o2.notes = some (pre ++ cancellationPrefix ++ reason)) ∧
    ((∀ o ∈ db.orders, o.order_id = oid →
        o.order_status = OrderStatus.fulfilled ∨
        o.order_status = OrderStatus.cancelled) →
      cancel_order db oid reason =
        Except.error (ApiError.notFound cannotCancelMsg)) := by
  constructor
  · intro o ho hid hst
    have hac : activeWithId oid o = true := activeWithId_true hid (Or.inl hst)
    have hany : db.orders.any (activeWithId oid) = true :=
      List.any_eq_true.mpr ⟨o, ho, hac⟩
    have hok : cancel_order db oid reason =
        Except.ok { db with orders := db.orders.map (fun x =>
          if activeWithId oid x then
            { x with order_status := OrderStatus.cancelled,
                     notes := some (cancelNotes reason x.notes),
                     version := x.version + 1 }
          else x) } := by
      simp [cancel_order, hany]
    refine ⟨_, hok, rfl, ?_⟩
    obtain ⟨pre, hpre⟩ := cancelNotes_contains reason o.notes
    refine ⟨_, mem_map_if_pos ho hac, ?_, rfl, rfl, pre, ?_⟩
    · show o.order_id = oid
      exact hid
    · show some (cancelNotes reason o.notes) =
        some (pre ++ cancellationPrefix ++ reason)
      rw [hpre]
  · intro hall
    have hany : db.orders.any (activeWithId oid) = false := by
      rw [List.any_eq_false]
      intro o ho
      unfold activeWithId
      by_cases hid : o.order_id = oid
      · rcases hall o ho hid with h | h <;> simp [h, hid]
      · simp [hid]
    simp [cancel_order, hany]

/-- C8 witness: cancelling the pending order succeeds with the reason
recorded; cancelling the fulfilled one fails with 404. -/
theorem C8_witness :
    (∃ db2, cancel_order dbH 1 cancelReasonEx = Except.ok db2 ∧
      db2.inventory = dbH.inventory ∧
      ∃ o2 ∈ db2.orders, o2.order_id = 1 ∧
        o2.order_status = OrderStatus.cancelled ∧
        o2.version = oH.version + 1 ∧
        ∃ pre, o2.notes =
          some (pre ++ cancellationPrefix ++ cancelReasonEx)) ∧
    cancel_order dbH 2 cancelReasonEx =
      Except.error (ApiError.notFound cannotCancelMsg) :=
  ⟨(C8_cancel_behaviour dbH 1 cancelReasonEx (by decide)).1 oH (by decide)
     rfl rfl,
   (C8_cancel_behaviour dbH 2 cancelReasonEx (by decide)).2 (by decide)⟩

/-- C9: confirmed.  Every embedded aggregation — status distribution,
demand forecast, category distribution, KPI totals — returns the empty
list or all-zero totals on an empty matching set and is total (no
exception path); every percentage is guarded so that a zero denominator
yields 0. -/
theorem C9_empty_aggregates (db : DB) (df : DistFilters) (today : Int)
    (days_back : Int) (days_forward : Nat)
    (fregion cregion kregion kcat : Option String) :
    (db.orders.filter (distMatches db df today) = [] →
      get_order_status_distribution db df today = []) ∧
    (db.orders.filter (forecastMatches db days_back fregion today) = [] →
      get_demand_forecast db days_back days_forward fregion today = []) ∧
    (invRows db cregion = [] →
      get_category_distribution db cregion = [] ∧
      inventoryTotalValue db cregion = 0) ∧
    (inventoryTotalValue db cregion = 0 →
      ∀ e ∈ get_category_distribution db cregion, e.percentage = 0) ∧
    (db.inventory.filter (fun r => invJoinOk db r &&
        invRegionCond db kregion r && invCategoryCond db kcat r) = [] →
      get_kpi_data db kregion kcat =
        { total_inventory_value := 0, total_products := 0,
          low_stock_alerts := 0, average_turnover := (15 : Rat) / 2 }) := by
  refine ⟨?_, ?_, ?_, ?_, ?_⟩
  · intro h
    simp [get_order_status_distribution, distGroups, h]
  · intro h
    simp [get_demand_forecast, historicalPoints, h]
  · intro h
    constructor
    · simp [get_category_distribution, h]
    · simp [inventoryTotalValue, h]
  · intro h0 e he
    simp only [get_category_distribution] at he
    obtain ⟨c, hc, rfl⟩ := List.mem_map.mp he
    simp [h0]
  · intro h
    simp [get_kpi_data, h]

/-- C9 witness: all four aggregations evaluated on the empty
database. -/
theorem C9_witness :
    get_order_status_distribution dbEmpty {} 0 = [] ∧
    get_demand_forecast dbEmpty 90 30 none 0 = [] ∧
    get_category_distribution dbEmpty none = [] ∧
    inventoryTotalValue dbEmpty none = 0 ∧
    get_kpi_data dbEmpty none none =
      { total_inventory_value := 0, total_products := 0,
        low_stock_alerts := 0, average_turnover := (15 : Rat) / 2 } := by
  have h := C9_empty_aggregates dbEmpty {} 0 90 30 none none none none
  exact ⟨h.1 rfl, h.2.1 rfl, (h.2.2.1 rfl).1, (h.2.2.1 rfl).2,
         h.2.2.2.2 rfl⟩

/-- C10: confirmed.  Without an as-of date, both the order list and the
status summary filter with `DATE(order_date) <= CURRENT_DATE`, so an
order created strictly after the current date is excluded from the list
and from the summary's row set (hence from its counts), whatever the
other filters say. -/
theorem C10_future_orders_excluded (db : DB) (f : OrderFilters)
    (g : SummaryFilters) (today : Int) (o : OrderRow)
    (hf : f.as_of_date = none) (hg : g.as_of_date = none)
    (hfut : today < o.order_date) :
    o ∉ get_orders_rows db f today ∧ o ∉ summaryRows db g today := by
  have hle : ¬ (o.order_date ≤ today) := not_le.mpr hfut
  constructor
  · intro hmem
    have h2 := (List.mem_filter.mp hmem).2
    unfold orderMatches at h2
    simp only [Bool.and_eq_true] at h2
    have hv := h2.1
    rw [hf] at hv
    simp [asOfVisible] at hv
    exact hle hv
  · intro hmem
    have h2 := (List.mem_filter.mp hmem).2
    unfold summaryMatches at h2
    simp only [Bool.and_eq_true] at h2
    obtain ⟨⟨⟨⟨hj, hv⟩, hr⟩, hc⟩, hd2⟩ := h2
    rw [hg] at hv
    simp [asOfVisible] at hv
    exact hle hv

/-- C10 witness: an order dated day 3 is invisible to both endpoints on
day 0. -/
theorem C10_witness :
    oF ∉ get_orders_rows dbF {} 0 ∧ oF ∉ summaryRows dbF {} 0 :=
  C10_future_orders_excluded dbF {} {} 0 oF rfl rfl (by decide)

end Brickhouse
